import Mathlib

/-!
# validatingadmissionpolicy-generate controller

A shallow embedding of `pkg/controllers/validatingadmissionpolicy-generate/controller.go`:
the exception intake (`enqueueException`) and the reconcile procedure (`reconcile`),
with the collaborators of the controller (listers, permission checker, eligibility
predicate, builders, API client) gathered in an environment record.

Two places hold derived objects and are kept apart, as in the source:
* the listers (`c.vapLister`, `c.vapbindingLister`) read the informer cache;
* the client (`c.client`) writes to the store.
-/

namespace VapGenerate

/-! ## Data model -/

/-- Error value: `notFound` is the answer of `apierrors.IsNotFound(err)`, `text` is
`err.Error()`. -/
structure Err where
  notFound : Bool
  text : String
deriving DecidableEq, Repr

/-- Rule of a policy: its name and whether it carries a validation body (`rule.HasValidate()`). -/
structure Rule where
  name : String
  validate : Bool
deriving DecidableEq, Repr

/-- Rule-bearing part of a cluster policy (`kyvernov1.Spec`). -/
structure Spec where
  rules : List Rule
deriving DecidableEq, Repr

/-- Cluster policy (`kyvernov1.ClusterPolicy`); cluster-scoped, identified by its name. -/
structure ClusterPolicy where
  name : String
  spec : Spec
deriving DecidableEq, Repr

/-- One entry of a policy exception (`kyvernov2.Exception`). -/
structure Exception where
  policyName : String
  ruleNames : List String
deriving DecidableEq, Repr

/-- Policy exception (`kyvernov2.PolicyException`). -/
structure PolicyException where
  name : String
  exceptions : List Exception
deriving DecidableEq, Repr

/-- Derived admission policy. `content` stands for what the builder writes (spec, owner
reference, labels); `resourceVersion` is the stored version marker. -/
structure ValidatingAdmissionPolicy where
  name : String
  resourceVersion : String
  content : String
deriving DecidableEq, Repr

/-- Derived binding, same shape as the admission policy. -/
structure ValidatingAdmissionPolicyBinding where
  name : String
  resourceVersion : String
  content : String
deriving DecidableEq, Repr

/-- Store of derived objects behind the client: the names present, per kind. -/
structure Cluster where
  vaps : List String
  vapbindings : List String
deriving DecidableEq, Repr

/-- Call issued through `c.client` against a derived object. -/
inductive Call where
  | createVAP (obj : ValidatingAdmissionPolicy)
  | updateVAP (obj : ValidatingAdmissionPolicy)
  | deleteVAP (name : String)
  | createVAPBinding (obj : ValidatingAdmissionPolicyBinding)
  | updateVAPBinding (obj : ValidatingAdmissionPolicyBinding)
  | deleteVAPBinding (name : String)
deriving DecidableEq, Repr

/-- Status written on the policy by `UpdateStatus`:
`Status.ValidatingAdmissionPolicy.Generated` and `.Message`. -/
structure StatusUpdate where
  policy : String
  generated : Bool
  message : String
deriving DecidableEq, Repr

/-- Audit event of `event.NewValidatingAdmissionPolicyEvent(policy, vapName, vapBindingName)`. -/
structure Event where
  policy : String
  vapName : String
  vapBindingName : String
deriving DecidableEq, Repr

/-- Result of `reconcile`: `nil`, an error, or the run-time failure of an out-of-range index. -/
inductive Result where
  | ok
  | error (err : Err)
  | indexOutOfRange
deriving DecidableEq, Repr

/-- Collaborators of the controller, none of them defined in the controller file.
* `cpolCache`, `polexCache`, `vapCache`, `vapbindingCache`: what the four listers read;
* the two permission answers of `admissionpolicy.HasValidatingAdmissionPolicyPermission`
  and `admissionpolicy.HasValidatingAdmissionPolicyBindingPermission` on `c.checker`;
* `canGenerateVAP`: `admissionpolicy.CanGenerateVAP`;
* `polexContains`: `polex.Contains(policyName, rule)`;
* `buildVAPContent`, `buildVAPBindingContent`: what the two builders write into their
  target, or their error;
* `vapCreate` ... `vapbindingDelete`: the answer of the store to a client call, `none`
  being success. -/
structure Env where
  cpolCache : List ClusterPolicy
  polexCache : List PolicyException
  vapCache : List ValidatingAdmissionPolicy
  vapbindingCache : List ValidatingAdmissionPolicyBinding
  hasValidatingAdmissionPolicyPermission : Bool
  hasValidatingAdmissionPolicyBindingPermission : Bool
  canGenerateVAP : Spec → List PolicyException → Bool × String
  polexContains : PolicyException → String → String → Bool
  buildVAPContent : ValidatingAdmissionPolicy → ClusterPolicy → List PolicyException →
    Except Err String
  buildVAPBindingContent : ValidatingAdmissionPolicyBinding → ClusterPolicy → Except Err String
  vapCreate : ValidatingAdmissionPolicy → Option Err
  vapUpdate : ValidatingAdmissionPolicy → Option Err
  vapDelete : String → Option Err
  vapbindingCreate : ValidatingAdmissionPolicyBinding → Option Err
  vapbindingUpdate : ValidatingAdmissionPolicyBinding → Option Err
  vapbindingDelete : String → Option Err

/-- Everything a run of the controller changes: the store, the client calls issued with
their answers, the status writes, the audit events. -/
structure World where
  cluster : Cluster
  calls : List (Call × Option Err)
  statuses : List StatusUpdate
  events : List Event
deriving DecidableEq, Repr

/-- World in which nothing has been done yet on store `c`. -/
def World.init (c : Cluster) : World :=
  { cluster := c, calls := [], statuses := [], events := [] }

/-! ## Store -/

/-- Whether an admission policy named `n` is in the store. -/
def Cluster.hasVAP (c : Cluster) (n : String) : Bool := c.vaps.contains n

/-- Whether a binding named `n` is in the store. -/
def Cluster.hasVAPBinding (c : Cluster) (n : String) : Bool := c.vapbindings.contains n

/-- Store after a successful create of admission policy `n`. -/
def Cluster.addVAP (c : Cluster) (n : String) : Cluster :=
  { c with vaps := if c.vaps.contains n then c.vaps else n :: c.vaps }

/-- Store after a successful delete of admission policy `n`. -/
def Cluster.removeVAP (c : Cluster) (n : String) : Cluster :=
  { c with vaps := c.vaps.filter (fun m => m != n) }

/-- Store after a successful create of binding `n`. -/
def Cluster.addVAPBinding (c : Cluster) (n : String) : Cluster :=
  { c with vapbindings := if c.vapbindings.contains n then c.vapbindings else n :: c.vapbindings }

/-- Store after a successful delete of binding `n`. -/
def Cluster.removeVAPBinding (c : Cluster) (n : String) : Cluster :=
  { c with vapbindings := c.vapbindings.filter (fun m => m != n) }

/-- Record a client call and its answer; on success the store becomes `c`. -/
def World.record (w : World) (call : Call) (answer : Option Err) (c : Cluster) : World :=
  { w with
    cluster := if answer.isNone then c else w.cluster
    calls := w.calls ++ [(call, answer)] }

/-- Client call `ValidatingAdmissionPolicies().Create`. -/
def createVAP (env : Env) (w : World) (obj : ValidatingAdmissionPolicy) : Option Err × World :=
  (env.vapCreate obj, w.record (.createVAP obj) (env.vapCreate obj) (w.cluster.addVAP obj.name))

/-- Client call `ValidatingAdmissionPolicies().Update`: existence in the store is unchanged. -/
def updateVAP (env : Env) (w : World) (obj : ValidatingAdmissionPolicy) : Option Err × World :=
  (env.vapUpdate obj, w.record (.updateVAP obj) (env.vapUpdate obj) w.cluster)

/-- Client call `ValidatingAdmissionPolicies().Delete`. -/
def deleteVAP (env : Env) (w : World) (name : String) : Option Err × World :=
  (env.vapDelete name, w.record (.deleteVAP name) (env.vapDelete name) (w.cluster.removeVAP name))

/-- Client call `ValidatingAdmissionPolicyBindings().Create`. -/
def createVAPBinding (env : Env) (w : World) (obj : ValidatingAdmissionPolicyBinding) :
    Option Err × World :=
  (env.vapbindingCreate obj,
    w.record (.createVAPBinding obj) (env.vapbindingCreate obj)
      (w.cluster.addVAPBinding obj.name))

/-- Client call `ValidatingAdmissionPolicyBindings().Update`. -/
def updateVAPBinding (env : Env) (w : World) (obj : ValidatingAdmissionPolicyBinding) :
    Option Err × World :=
  (env.vapbindingUpdate obj, w.record (.updateVAPBinding obj) (env.vapbindingUpdate obj) w.cluster)

/-- Client call `ValidatingAdmissionPolicyBindings().Delete`. -/
def deleteVAPBinding (env : Env) (w : World) (name : String) : Option Err × World :=
  (env.vapbindingDelete name,
    w.record (.deleteVAPBinding name) (env.vapbindingDelete name)
      (w.cluster.removeVAPBinding name))

/-! ## Collaborators declared outside the controller file -/

/-- Modelled from the spec: `spec.HasValidate()` is declared outside the controller file;
the spec reads it as "the policy's rule set contains a validation rule". -/
def Spec.HasValidate (s : Spec) : Bool := s.rules.any (fun r => r.validate)

/-- Modelled from the spec: the lister `Get` of the store/watch collaborator,
`get(kind, name) -> object|NotFound` over the local cache. The only error it answers is
not-found, so the branches of the controller for other lookup errors are embedded as
written but never taken. -/
def listerGet {α : Type} (key : α → String) (cache : List α) (name : String) : Except Err α :=
  match cache.find? (fun o => key o == name) with
  | some o => .ok o
  | none => .error { notFound := true, text := name ++ " not found" }

/-- Modelled from the spec: the lister `List(labels.Everything())` of the store/watch
collaborator, `list(kind, selector) -> [object]` over the local cache. -/
def polexListerList (env : Env) : Except Err (List PolicyException) := .ok env.polexCache

/-- Modelled from the spec: `admissionpolicy.BuildValidatingAdmissionPolicy` mutates the
target in place; it fills the generated content and keeps the target's name and version. -/
def BuildValidatingAdmissionPolicy (env : Env) (target : ValidatingAdmissionPolicy)
    (policy : ClusterPolicy) (exceptions : List PolicyException) :
    Except Err ValidatingAdmissionPolicy :=
  match env.buildVAPContent target policy exceptions with
  | .error err => .error err
  | .ok content => .ok { target with content := content }

/-- Modelled from the spec: `admissionpolicy.BuildValidatingAdmissionPolicyBinding` mutates
the target in place, from the source policy only. -/
def BuildValidatingAdmissionPolicyBinding (env : Env) (target : ValidatingAdmissionPolicyBinding)
    (policy : ClusterPolicy) : Except Err ValidatingAdmissionPolicyBinding :=
  match env.buildVAPBindingContent target policy with
  | .error err => .error err
  | .ok content => .ok { target with content := content }

/-- Modelled from the spec: `controllerutils.Update` on an admission policy, "re-run the same
construction against the currently observed object and apply it as an update". -/
def UpdateVAP (env : Env) (w : World) (observed : ValidatingAdmissionPolicy)
    (build : ValidatingAdmissionPolicy → Except Err ValidatingAdmissionPolicy) :
    Option Err × World :=
  match build observed with
  | .error err => (some err, w)
  | .ok mutated => updateVAP env w mutated

/-- Modelled from the spec: `controllerutils.Update` on a binding. -/
def UpdateVAPBinding (env : Env) (w : World) (observed : ValidatingAdmissionPolicyBinding)
    (build : ValidatingAdmissionPolicyBinding → Except Err ValidatingAdmissionPolicyBinding) :
    Option Err × World :=
  match build observed with
  | .error err => (some err, w)
  | .ok mutated => updateVAPBinding env w mutated

/-! ## controller.go -/

/-- Go `strings.Contains(s, "/")`. -/
def containsSlash (s : String) : Bool := s.data.contains '/'

/-- Function `enqueuePolicy`: the key of a cluster-scoped object is its name (the key function
does not fail on a policy); `queue` lists the keys handed to `c.queue.Add`, in order. -/
def enqueuePolicy (queue : List String) (obj : ClusterPolicy) : List String :=
  queue ++ [obj.name]

/-- Function `getClusterPolicy`. -/
def getClusterPolicy (env : Env) (name : String) : Except Err ClusterPolicy :=
  match listerGet ClusterPolicy.name env.cpolCache name with
  | .error err => .error err
  | .ok cpolicy => .ok cpolicy

/-- Function `getValidatingAdmissionPolicy`. -/
def getValidatingAdmissionPolicy (env : Env) (name : String) :
    Except Err ValidatingAdmissionPolicy :=
  match listerGet ValidatingAdmissionPolicy.name env.vapCache name with
  | .error err => .error err
  | .ok vap => .ok vap

/-- Function `getValidatingAdmissionPolicyBinding`. -/
def getValidatingAdmissionPolicyBinding (env : Env) (name : String) :
    Except Err ValidatingAdmissionPolicyBinding :=
  match listerGet ValidatingAdmissionPolicyBinding.name env.vapbindingCache name with
  | .error err => .error err
  | .ok vapbinding => .ok vapbinding

/-- Loop of `enqueueException` (lines 174-192) over the entries still to visit. Both failure
branches of the lookup leave the function (`return`), so the remaining entries are not
visited. -/
def enqueueExceptionLoop (env : Env) : List Exception → List String → List String
  | [], queue => queue
  | exception :: rest, queue =>
    if containsSlash exception.policyName || decide (exception.ruleNames.length > 1) then
      enqueueExceptionLoop env rest queue
    else
      match getClusterPolicy env exception.policyName with
      | .error err => if err.notFound then queue else queue
      | .ok cpol => enqueueExceptionLoop env rest (enqueuePolicy queue cpol)

/-- Function `enqueueException`. -/
def enqueueException (env : Env) (queue : List String) (obj : PolicyException) : List String :=
  enqueueExceptionLoop env obj.exceptions queue

/-- Function `getExceptions`: the cached exceptions that contain the policy/rule pair. -/
def getExceptions (env : Env) (policyName rule : String) : Except Err (List PolicyException) :=
  match polexListerList env with
  | .error err => .error err
  | .ok polexs => .ok (polexs.filter (fun polex => env.polexContains polex policyName rule))

/-- Function `constructVapBindingName`. -/
def constructVapBindingName (vapName : String) : String := vapName ++ "-binding"

/-- Function `updateClusterPolicyStatus`: one status write; its own failure is dropped. -/
def updateClusterPolicyStatus (w : World) (cpol : ClusterPolicy) (generated : Bool)
    (msg : String) : World :=
  { w with
    statuses := w.statuses ++
      [{ policy := cpol.name, generated := generated, message := msg }] }

/-- Part of `reconcile` (lines 331-352): the branch taken when `CanGenerateVAP` answers not ok,
which deletes what the listers observed and then writes the status. -/
def reconcileSkip (env : Env) (w : World) (policy : ClusterPolicy)
    (vapName vapBindingName : String)
    (vapRes : Except Err ValidatingAdmissionPolicy)
    (vapBindingRes : Except Err ValidatingAdmissionPolicyBinding) (msg : String) :
    Result × World :=
  -- delete the ValidatingAdmissionPolicy if exist
  match (match vapRes with
         | .ok _ => deleteVAP env w vapName
         | .error _ => (none, w)) with
  | (some err, w1) => (.error err, w1)
  | (none, w1) =>
    -- delete the ValidatingAdmissionPolicyBinding if exist
    match (match vapBindingRes with
           | .ok _ => deleteVAPBinding env w1 vapBindingName
           | .error _ => (none, w1)) with
    | (some err, w2) => (.error err, w2)
    | (none, w2) =>
      let msg := if msg == "" then
          "skip generating ValidatingAdmissionPolicy: a policy exception is configured."
        else msg
      (.ok, updateClusterPolicyStatus w2 policy false msg)

/-- Part of `reconcile` (lines 378-401): create-or-update of the admission policy; answers the
value of `observedVAP` afterwards (the built object after a create, as it is built in
place). -/
def applyVAP (env : Env) (w : World) (policy : ClusterPolicy)
    (exceptions : List PolicyException) (observedVAP : ValidatingAdmissionPolicy) :
    Except Err ValidatingAdmissionPolicy × World :=
  if observedVAP.resourceVersion == "" then
    match BuildValidatingAdmissionPolicy env observedVAP policy exceptions with
    | .error err => (.error err, w)
    | .ok built =>
      match createVAP env w built with
      | (some err, w1) => (.error err, w1)
      | (none, w1) => (.ok built, w1)
  else
    match UpdateVAP env w observedVAP
        (fun observed => BuildValidatingAdmissionPolicy env observed policy exceptions) with
    | (some err, w1) => (.error err, w1)
    | (none, w1) => (.ok observedVAP, w1)

/-- Part of `reconcile` (lines 403-426): create-or-update of the binding. -/
def applyVAPBinding (env : Env) (w : World) (policy : ClusterPolicy)
    (observedVAPbinding : ValidatingAdmissionPolicyBinding) :
    Except Err ValidatingAdmissionPolicyBinding × World :=
  if observedVAPbinding.resourceVersion == "" then
    match BuildValidatingAdmissionPolicyBinding env observedVAPbinding policy with
    | .error err => (.error err, w)
    | .ok built =>
      match createVAPBinding env w built with
      | (some err, w1) => (.error err, w1)
      | (none, w1) => (.ok built, w1)
  else
    match UpdateVAPBinding env w observedVAPbinding
        (fun observed => BuildValidatingAdmissionPolicyBinding env observed policy) with
    | (some err, w1) => (.error err, w1)
    | (none, w1) => (.ok observedVAPbinding, w1)

/-- Part of `reconcile` (lines 354-433): the branch taken when `CanGenerateVAP` answers ok. -/
def reconcileGenerate (env : Env) (w : World) (policy : ClusterPolicy)
    (exceptions : List PolicyException) (vapName vapBindingName : String)
    (vapRes : Except Err ValidatingAdmissionPolicy)
    (vapBindingRes : Except Err ValidatingAdmissionPolicyBinding) : Result × World :=
  match (match vapRes with
         | .ok vap => Except.ok vap
         | .error vapErr =>
           if !vapErr.notFound then .error vapErr
           else .ok { name := vapName, resourceVersion := "", content := "" }) with
  | .error vapErr => (.error vapErr, updateClusterPolicyStatus w policy false vapErr.text)
  | .ok observedVAP =>
    match (match vapBindingRes with
           | .ok vapbinding => Except.ok vapbinding
           | .error vapBindingErr =>
             if !vapBindingErr.notFound then .error vapBindingErr
             else .ok { name := vapBindingName, resourceVersion := "", content := "" }) with
    | .error vapBindingErr =>
      (.error vapBindingErr, updateClusterPolicyStatus w policy false vapBindingErr.text)
    | .ok observedVAPbinding =>
      match applyVAP env w policy exceptions observedVAP with
      | (.error err, w1) => (.error err, updateClusterPolicyStatus w1 policy false err.text)
      | (.ok observedVAP, w1) =>
        match applyVAPBinding env w1 policy observedVAPbinding with
        | (.error err, w2) => (.error err, updateClusterPolicyStatus w2 policy false err.text)
        | (.ok observedVAPbinding, w2) =>
          let w3 := updateClusterPolicyStatus w2 policy true ""
          -- generate events
          (.ok, { w3 with events := w3.events ++
            [{ policy := policy.name, vapName := observedVAP.name,
               vapBindingName := observedVAPbinding.name }] })

/-- Function `reconcile` (lines 291-433). The access `spec.Rules[0]` fails with
`indexOutOfRange` on an empty rule set. -/
def reconcile (env : Env) (w : World) (name : String) : Result × World :=
  match getClusterPolicy env name with
  | .error err => if err.notFound then (.ok, w) else (.error err, w)
  | .ok policy =>
    let spec := policy.spec
    if !spec.HasValidate then (.ok, w)
    else if !env.hasValidatingAdmissionPolicyPermission then
      (.ok, updateClusterPolicyStatus w policy false
        "insufficient permissions to generate ValidatingAdmissionPolicies")
    else if !env.hasValidatingAdmissionPolicyBindingPermission then
      (.ok, updateClusterPolicyStatus w policy false
        "insufficient permissions to generate ValidatingAdmissionPolicyBindings")
    else
      let vapName := policy.name
      let vapBindingName := constructVapBindingName vapName
      let vapRes := getValidatingAdmissionPolicy env vapName
      let vapBindingRes := getValidatingAdmissionPolicyBinding env vapBindingName
      match spec.rules with
      | [] => (.indexOutOfRange, w)
      | rule0 :: _ =>
        match getExceptions env name rule0.name with
        | .error err => (.error err, w)
        | .ok exceptions =>
          match env.canGenerateVAP spec exceptions with
          | (false, msg) =>
            reconcileSkip env w policy vapName vapBindingName vapRes vapBindingRes msg
          | (true, _) =>
            reconcileGenerate env w policy exceptions vapName vapBindingName vapRes vapBindingRes

/-! ## Vocabulary of the statements -/

/-- Exceptions `reconcile` hands to the eligibility predicate: the cached ones that contain
the reconciled name and the name of the policy's first rule. -/
def applicableExceptions (env : Env) (name : String) (policy : ClusterPolicy) :
    List PolicyException :=
  match policy.spec.rules with
  | [] => []
  | rule0 :: _ => env.polexCache.filter (fun polex => env.polexContains polex name rule0.name)

/-- Value of `observedVAP` when `reconcile` reaches the create-or-update step: the cached
object, or a fresh one carrying only the name when the lister answers not-found. -/
def observedVAPOrFresh (env : Env) (vapName : String) : ValidatingAdmissionPolicy :=
  match getValidatingAdmissionPolicy env vapName with
  | .ok vap => vap
  | .error _ => { name := vapName, resourceVersion := "", content := "" }

/-- Value of `observedVAPbinding` when `reconcile` reaches the create-or-update step. -/
def observedVAPBindingOrFresh (env : Env) (vapBindingName : String) :
    ValidatingAdmissionPolicyBinding :=
  match getValidatingAdmissionPolicyBinding env vapBindingName with
  | .ok vapbinding => vapbinding
  | .error _ => { name := vapBindingName, resourceVersion := "", content := "" }

/-- Whether the admission-policy lister observes an object named `n`. -/
def Env.observesVAP (env : Env) (n : String) : Bool :=
  match getValidatingAdmissionPolicy env n with
  | .ok _ => true
  | .error _ => false

/-- Whether the binding lister observes an object named `n`. -/
def Env.observesVAPBinding (env : Env) (n : String) : Bool :=
  match getValidatingAdmissionPolicyBinding env n with
  | .ok _ => true
  | .error _ => false

/-- Store call the create-or-update step issues for the admission policy: a create when the
observed object has no stored version, an update otherwise. -/
def vapWrite (observed built : ValidatingAdmissionPolicy) : Call :=
  if observed.resourceVersion = "" then .createVAP built else .updateVAP built

/-- Answer of the store to `vapWrite`. -/
def vapWriteAnswer (env : Env) (observed built : ValidatingAdmissionPolicy) : Option Err :=
  if observed.resourceVersion = "" then env.vapCreate built else env.vapUpdate built

/-- Store call the create-or-update step issues for the binding. -/
def vapBindingWrite (observed built : ValidatingAdmissionPolicyBinding) : Call :=
  if observed.resourceVersion = "" then .createVAPBinding built else .updateVAPBinding built

/-- Answer of the store to `vapBindingWrite`. -/
def vapBindingWriteAnswer (env : Env) (observed built : ValidatingAdmissionPolicyBinding) :
    Option Err :=
  if observed.resourceVersion = "" then env.vapbindingCreate built
  else env.vapbindingUpdate built

/-! ## Concrete inputs -/

/-- Policy `p1` with the single validation rule `r1`. -/
def policyP1 : ClusterPolicy :=
  { name := "p1", spec := { rules := [{ name := "r1", validate := true }] } }

/-- Policy `p0` with an empty rule set. -/
def policyP0 : ClusterPolicy := { name := "p0", spec := { rules := [] } }

/-- Exception `ex1` on rule `r1` of policy `p1`. -/
def polexP1 : PolicyException :=
  { name := "ex1", exceptions := [{ policyName := "p1", ruleNames := ["r1"] }] }

/-- Exception whose first entry names a policy absent from the cache and whose second entry
names `p1`. -/
def polexGoneThenP1 : PolicyException :=
  { name := "ex2"
    exceptions := [{ policyName := "gone", ruleNames := [] },
      { policyName := "p1", ruleNames := ["r1"] }] }

/-- Stored admission policy `p1`. -/
def vapP1 : ValidatingAdmissionPolicy := { name := "p1", resourceVersion := "7", content := "old" }

/-- Stored binding `p1-binding`. -/
def vapBindingP1 : ValidatingAdmissionPolicyBinding :=
  { name := "p1-binding", resourceVersion := "8", content := "old" }

/-- Scenario A: `p1` cached, no exception, both capabilities, nothing derived yet, a store
that accepts every call; a policy is eligible when no exception applies to it. -/
def envA : Env :=
  { cpolCache := [policyP1, policyP0]
    polexCache := []
    vapCache := []
    vapbindingCache := []
    hasValidatingAdmissionPolicyPermission := true
    hasValidatingAdmissionPolicyBindingPermission := true
    canGenerateVAP := fun _ exceptions => (exceptions.isEmpty, "")
    polexContains := fun polex policyName rule =>
      polex.exceptions.any (fun e => e.policyName == policyName && e.ruleNames.contains rule)
    buildVAPContent := fun _ policy _ => .ok policy.name
    buildVAPBindingContent := fun _ policy => .ok policy.name
    vapCreate := fun _ => none
    vapUpdate := fun _ => none
    vapDelete := fun _ => none
    vapbindingCreate := fun _ => none
    vapbindingUpdate := fun _ => none
    vapbindingDelete := fun _ => none }

/-- Scenario C: as `envA`, both derived objects already stored and observed. -/
def envC : Env := { envA with vapCache := [vapP1], vapbindingCache := [vapBindingP1] }

/-- Scenario B: as `envC`, with the exception `ex1` cached, so that `p1` is ineligible with an
empty reason. -/
def envB : Env := { envC with polexCache := [polexP1] }

/-- As `envB`, but the listers have not observed the derived objects yet. -/
def envStale : Env := { envA with polexCache := [polexP1] }

/-- Scenario D: as `envA` with the admission policy observed and the binding capability
missing. -/
def envD : Env :=
  { envA with vapCache := [vapP1], hasValidatingAdmissionPolicyBindingPermission := false }

/-- As `envC` with the admission-policy capability missing. -/
def envNoVAPPermission : Env := { envC with hasValidatingAdmissionPolicyPermission := false }

/-- As `envB`, with a store in which the admission policy is already gone: its delete
answers not-found. -/
def envGone : Env :=
  { envB with vapDelete := fun n => some { notFound := true, text := n ++ " not found" } }

/-- As `envA`, with a store that refuses the create of the binding. -/
def envBindingRefused : Env :=
  { envA with vapbindingCreate := fun _ => some { notFound := false, text := "forbidden" } }

/-- Store holding both derived objects of `p1`. -/
def clusterBoth : Cluster := { vaps := ["p1"], vapbindings := ["p1-binding"] }

/-- Store holding only the admission policy of `p1`. -/
def clusterVAPOnly : Cluster := { vaps := ["p1"], vapbindings := [] }

/-- Store holding only the binding of `p1`. -/
def clusterBindingOnly : Cluster := { vaps := [], vapbindings := ["p1-binding"] }

/-- Store holding no derived object. -/
def clusterEmpty : Cluster := { vaps := [], vapbindings := [] }

/-! ## Lemmas on the collaborators -/

theorem listerGet_ok_key {α : Type} (key : α → String) (cache : List α) (name : String)
    (o : α) (h : listerGet key cache name = .ok o) : key o = name := by
  unfold listerGet at h
  split at h
  · rename_i o2 hfind
    have hk := List.find?_some hfind
    simp at h
    subst h
    simpa using hk
  · simp at h

theorem listerGet_error_notFound {α : Type} (key : α → String) (cache : List α) (name : String)
    (e : Err) (h : listerGet key cache name = .error e) : e.notFound = true := by
  unfold listerGet at h
  split at h
  · simp at h
  · simp at h
    subst h
    rfl

theorem getClusterPolicy_name (env : Env) (name : String) (policy : ClusterPolicy)
    (h : getClusterPolicy env name = .ok policy) : policy.name = name := by
  unfold getClusterPolicy at h
  split at h
  · simp at h
  · rename_i cp hget
    simp at h
    subst h
    exact listerGet_ok_key _ _ _ _ hget

theorem getValidatingAdmissionPolicy_name (env : Env) (name : String)
    (vap : ValidatingAdmissionPolicy)
    (h : getValidatingAdmissionPolicy env name = .ok vap) : vap.name = name := by
  unfold getValidatingAdmissionPolicy at h
  split at h
  · simp at h
  · rename_i v hget
    simp at h
    subst h
    exact listerGet_ok_key _ _ _ _ hget

theorem getValidatingAdmissionPolicy_notFound (env : Env) (name : String) (e : Err)
    (h : getValidatingAdmissionPolicy env name = .error e) : e.notFound = true := by
  unfold getValidatingAdmissionPolicy at h
  split at h
  · rename_i e2 hget
    simp at h
    subst h
    exact listerGet_error_notFound _ _ _ _ hget
  · simp at h

theorem getValidatingAdmissionPolicyBinding_name (env : Env) (name : String)
    (vapbinding : ValidatingAdmissionPolicyBinding)
    (h : getValidatingAdmissionPolicyBinding env name = .ok vapbinding) :
    vapbinding.name = name := by
  unfold getValidatingAdmissionPolicyBinding at h
  split at h
  · simp at h
  · rename_i v hget
    simp at h
    subst h
    exact listerGet_ok_key _ _ _ _ hget

theorem getValidatingAdmissionPolicyBinding_notFound (env : Env) (name : String) (e : Err)
    (h : getValidatingAdmissionPolicyBinding env name = .error e) : e.notFound = true := by
  unfold getValidatingAdmissionPolicyBinding at h
  split at h
  · rename_i e2 hget
    simp at h
    subst h
    exact listerGet_error_notFound _ _ _ _ hget
  · simp at h

theorem hasValidate_rules_ne_nil (s : Spec) (h : s.HasValidate = true) : s.rules ≠ [] := by
  intro hnil
  simp [Spec.HasValidate, hnil] at h

theorem observedVAPOrFresh_name (env : Env) (n : String) :
    (observedVAPOrFresh env n).name = n := by
  unfold observedVAPOrFresh
  split
  · rename_i v h
    exact getValidatingAdmissionPolicy_name env n v h
  · rfl

theorem observedVAPBindingOrFresh_name (env : Env) (n : String) :
    (observedVAPBindingOrFresh env n).name = n := by
  unfold observedVAPBindingOrFresh
  split
  · rename_i v h
    exact getValidatingAdmissionPolicyBinding_name env n v h
  · rfl

/-! ## The two branches `reconcile` takes once the gates are passed -/

theorem reconcile_of_ineligible (env : Env) (w : World) (name : String) (policy : ClusterPolicy)
    (msg : String)
    (hfound : getClusterPolicy env name = .ok policy)
    (hval : policy.spec.HasValidate = true)
    (hvap : env.hasValidatingAdmissionPolicyPermission = true)
    (hbinding : env.hasValidatingAdmissionPolicyBindingPermission = true)
    (hskip : env.canGenerateVAP policy.spec (applicableExceptions env name policy) = (false, msg)) :
    reconcile env w name =
      reconcileSkip env w policy policy.name (constructVapBindingName policy.name)
        (getValidatingAdmissionPolicy env policy.name)
        (getValidatingAdmissionPolicyBinding env (constructVapBindingName policy.name)) msg := by
  have hne := hasValidate_rules_ne_nil policy.spec hval
  unfold applicableExceptions at hskip
  unfold reconcile
  rw [hfound]
  simp only [hval, hvap, hbinding]
  cases hr : policy.spec.rules with
  | nil => exact absurd hr hne
  | cons rule0 rest =>
    rw [hr] at hskip
    simp only [getExceptions, polexListerList]
    simp [hskip]

theorem reconcile_of_eligible (env : Env) (w : World) (name : String) (policy : ClusterPolicy)
    (msg : String)
    (hfound : getClusterPolicy env name = .ok policy)
    (hval : policy.spec.HasValidate = true)
    (hvap : env.hasValidatingAdmissionPolicyPermission = true)
    (hbinding : env.hasValidatingAdmissionPolicyBindingPermission = true)
    (hgen : env.canGenerateVAP policy.spec (applicableExceptions env name policy) = (true, msg)) :
    reconcile env w name =
      reconcileGenerate env w policy (applicableExceptions env name policy) policy.name
        (constructVapBindingName policy.name)
        (getValidatingAdmissionPolicy env policy.name)
        (getValidatingAdmissionPolicyBinding env (constructVapBindingName policy.name)) := by
  have hne := hasValidate_rules_ne_nil policy.spec hval
  unfold applicableExceptions at hgen ⊢
  unfold reconcile
  rw [hfound]
  simp only [hval, hvap, hbinding]
  cases hr : policy.spec.rules with
  | nil => exact absurd hr hne
  | cons rule0 rest =>
    rw [hr] at hgen
    simp only [getExceptions, polexListerList]
    simp [hgen]

/-! ## Lemmas on the store -/

@[simp] theorem hasVAP_removeVAP (c : Cluster) (n : String) :
    (c.removeVAP n).hasVAP n = false := by
  simp [Cluster.hasVAP, Cluster.removeVAP, List.contains_iff_exists_mem_beq]

@[simp] theorem hasVAP_removeVAPBinding (c : Cluster) (n m : String) :
    (c.removeVAPBinding m).hasVAP n = c.hasVAP n := rfl

@[simp] theorem hasVAPBinding_removeVAPBinding (c : Cluster) (n : String) :
    (c.removeVAPBinding n).hasVAPBinding n = false := by
  simp [Cluster.hasVAPBinding, Cluster.removeVAPBinding, List.contains_iff_exists_mem_beq]

@[simp] theorem hasVAPBinding_removeVAP (c : Cluster) (n m : String) :
    (c.removeVAP m).hasVAPBinding n = c.hasVAPBinding n := rfl

@[simp] theorem hasVAP_addVAP (c : Cluster) (n : String) : (c.addVAP n).hasVAP n = true := by
  by_cases h : n ∈ c.vaps
  · simp [Cluster.hasVAP, Cluster.addVAP, h]
  · simp [Cluster.hasVAP, Cluster.addVAP, h]

@[simp] theorem hasVAP_addVAPBinding (c : Cluster) (n m : String) :
    (c.addVAPBinding m).hasVAP n = c.hasVAP n := rfl

@[simp] theorem hasVAPBinding_addVAPBinding (c : Cluster) (n : String) :
    (c.addVAPBinding n).hasVAPBinding n = true := by
  by_cases h : n ∈ c.vapbindings
  · simp [Cluster.hasVAPBinding, Cluster.addVAPBinding, h]
  · simp [Cluster.hasVAPBinding, Cluster.addVAPBinding, h]

@[simp] theorem hasVAPBinding_addVAP (c : Cluster) (n m : String) :
    (c.addVAP m).hasVAPBinding n = c.hasVAPBinding n := rfl

/-! ## Lemmas on the create-or-update step -/

theorem applyVAP_build_error (env : Env) (w : World) (policy : ClusterPolicy)
    (exceptions : List PolicyException) (tv : ValidatingAdmissionPolicy) (e : Err)
    (hbuild : BuildValidatingAdmissionPolicy env tv policy exceptions = .error e) :
    applyVAP env w policy exceptions tv = (.error e, w) := by
  unfold applyVAP UpdateVAP
  by_cases hrv : tv.resourceVersion = "" <;> simp [hrv, hbuild]

theorem applyVAP_write_error (env : Env) (w : World) (policy : ClusterPolicy)
    (exceptions : List PolicyException) (tv bv : ValidatingAdmissionPolicy) (e : Err)
    (hbuild : BuildValidatingAdmissionPolicy env tv policy exceptions = .ok bv)
    (hwrite : vapWriteAnswer env tv bv = some e) :
    applyVAP env w policy exceptions tv =
      (.error e, { w with calls := w.calls ++ [(vapWrite tv bv, some e)] }) := by
  unfold applyVAP UpdateVAP
  unfold vapWriteAnswer at hwrite
  by_cases hrv : tv.resourceVersion = "" <;>
    simp [hrv] at hwrite <;>
    simp [hrv, hbuild, hwrite, createVAP, updateVAP, World.record, vapWrite]

theorem applyVAP_ok (env : Env) (w : World) (policy : ClusterPolicy)
    (exceptions : List PolicyException) (tv bv : ValidatingAdmissionPolicy)
    (hbuild : BuildValidatingAdmissionPolicy env tv policy exceptions = .ok bv)
    (hwrite : vapWriteAnswer env tv bv = none) :
    applyVAP env w policy exceptions tv =
      (.ok (if tv.resourceVersion = "" then bv else tv),
        { w with
          cluster := if tv.resourceVersion = "" then w.cluster.addVAP bv.name else w.cluster
          calls := w.calls ++ [(vapWrite tv bv, none)] }) := by
  unfold applyVAP UpdateVAP
  unfold vapWriteAnswer at hwrite
  by_cases hrv : tv.resourceVersion = "" <;>
    simp [hrv] at hwrite <;>
    simp [hrv, hbuild, hwrite, createVAP, updateVAP, World.record, vapWrite]

theorem applyVAPBinding_build_error (env : Env) (w : World) (policy : ClusterPolicy)
    (tb : ValidatingAdmissionPolicyBinding) (e : Err)
    (hbuild : BuildValidatingAdmissionPolicyBinding env tb policy = .error e) :
    applyVAPBinding env w policy tb = (.error e, w) := by
  unfold applyVAPBinding UpdateVAPBinding
  by_cases hrv : tb.resourceVersion = "" <;> simp [hrv, hbuild]

theorem applyVAPBinding_write_error (env : Env) (w : World) (policy : ClusterPolicy)
    (tb bb : ValidatingAdmissionPolicyBinding) (e : Err)
    (hbuild : BuildValidatingAdmissionPolicyBinding env tb policy = .ok bb)
    (hwrite : vapBindingWriteAnswer env tb bb = some e) :
    applyVAPBinding env w policy tb =
      (.error e, { w with calls := w.calls ++ [(vapBindingWrite tb bb, some e)] }) := by
  unfold applyVAPBinding UpdateVAPBinding
  unfold vapBindingWriteAnswer at hwrite
  by_cases hrv : tb.resourceVersion = "" <;>
    simp [hrv] at hwrite <;>
    simp [hrv, hbuild, hwrite, createVAPBinding, updateVAPBinding, World.record, vapBindingWrite]

theorem applyVAPBinding_ok (env : Env) (w : World) (policy : ClusterPolicy)
    (tb bb : ValidatingAdmissionPolicyBinding)
    (hbuild : BuildValidatingAdmissionPolicyBinding env tb policy = .ok bb)
    (hwrite : vapBindingWriteAnswer env tb bb = none) :
    applyVAPBinding env w policy tb =
      (.ok (if tb.resourceVersion = "" then bb else tb),
        { w with
          cluster :=
            if tb.resourceVersion = "" then w.cluster.addVAPBinding bb.name else w.cluster
          calls := w.calls ++ [(vapBindingWrite tb bb, none)] }) := by
  unfold applyVAPBinding UpdateVAPBinding
  unfold vapBindingWriteAnswer at hwrite
  by_cases hrv : tb.resourceVersion = "" <;>
    simp [hrv] at hwrite <;>
    simp [hrv, hbuild, hwrite, createVAPBinding, updateVAPBinding, World.record, vapBindingWrite]

theorem reconcileGenerate_eq (env : Env) (w : World) (policy : ClusterPolicy)
    (exceptions : List PolicyException) (n bn : String) :
    reconcileGenerate env w policy exceptions n bn (getValidatingAdmissionPolicy env n)
        (getValidatingAdmissionPolicyBinding env bn) =
      match applyVAP env w policy exceptions (observedVAPOrFresh env n) with
      | (.error err, w1) => (.error err, updateClusterPolicyStatus w1 policy false err.text)
      | (.ok observedVAP, w1) =>
        match applyVAPBinding env w1 policy (observedVAPBindingOrFresh env bn) with
        | (.error err, w2) => (.error err, updateClusterPolicyStatus w2 policy false err.text)
        | (.ok observedVAPbinding, w2) =>
          (.ok,
            { updateClusterPolicyStatus w2 policy true "" with
              events := (updateClusterPolicyStatus w2 policy true "").events ++
                [{ policy := policy.name, vapName := observedVAP.name,
                   vapBindingName := observedVAPbinding.name }] }) := by
  unfold reconcileGenerate observedVAPOrFresh observedVAPBindingOrFresh
  cases hv : getValidatingAdmissionPolicy env n with
  | error e =>
    have he := getValidatingAdmissionPolicy_notFound env n e hv
    cases hb : getValidatingAdmissionPolicyBinding env bn with
    | error e2 =>
      have he2 := getValidatingAdmissionPolicyBinding_notFound env bn e2 hb
      simp [he, he2]
    | ok vb => simp [he]
  | ok v =>
    cases hb : getValidatingAdmissionPolicyBinding env bn with
    | error e2 =>
      have he2 := getValidatingAdmissionPolicyBinding_notFound env bn e2 hb
      simp [he2]
    | ok vb => simp

theorem reconcileGenerate_vap_build_error (env : Env) (w : World) (policy : ClusterPolicy)
    (exceptions : List PolicyException) (n bn : String) (e : Err)
    (hbuild : BuildValidatingAdmissionPolicy env (observedVAPOrFresh env n) policy exceptions
      = .error e) :
    reconcileGenerate env w policy exceptions n bn (getValidatingAdmissionPolicy env n)
        (getValidatingAdmissionPolicyBinding env bn) =
      (.error e, updateClusterPolicyStatus w policy false e.text) := by
  rw [reconcileGenerate_eq, applyVAP_build_error env w policy exceptions _ e hbuild]

theorem reconcileGenerate_vap_write_error (env : Env) (w : World) (policy : ClusterPolicy)
    (exceptions : List PolicyException) (n bn : String) (bv : ValidatingAdmissionPolicy)
    (e : Err)
    (hbuild : BuildValidatingAdmissionPolicy env (observedVAPOrFresh env n) policy exceptions
      = .ok bv)
    (hwrite : vapWriteAnswer env (observedVAPOrFresh env n) bv = some e) :
    reconcileGenerate env w policy exceptions n bn (getValidatingAdmissionPolicy env n)
        (getValidatingAdmissionPolicyBinding env bn) =
      (.error e,
        updateClusterPolicyStatus
          { w with calls := w.calls ++ [(vapWrite (observedVAPOrFresh env n) bv, some e)] }
          policy false e.text) := by
  rw [reconcileGenerate_eq, applyVAP_write_error env w policy exceptions _ bv e hbuild hwrite]

theorem reconcileGenerate_binding_build_error (env : Env) (w : World) (policy : ClusterPolicy)
    (exceptions : List PolicyException) (n bn : String) (bv : ValidatingAdmissionPolicy)
    (e : Err)
    (hbuild : BuildValidatingAdmissionPolicy env (observedVAPOrFresh env n) policy exceptions
      = .ok bv)
    (hwrite : vapWriteAnswer env (observedVAPOrFresh env n) bv = none)
    (hbuildBinding : BuildValidatingAdmissionPolicyBinding env
      (observedVAPBindingOrFresh env bn) policy = .error e) :
    reconcileGenerate env w policy exceptions n bn (getValidatingAdmissionPolicy env n)
        (getValidatingAdmissionPolicyBinding env bn) =
      (.error e,
        updateClusterPolicyStatus
          { w with
            cluster :=
              if (observedVAPOrFresh env n).resourceVersion = "" then w.cluster.addVAP bv.name
              else w.cluster
            calls := w.calls ++ [(vapWrite (observedVAPOrFresh env n) bv, none)] }
          policy false e.text) := by
  rw [reconcileGenerate_eq, applyVAP_ok env w policy exceptions _ bv hbuild hwrite]
  dsimp only
  rw [applyVAPBinding_build_error env _ policy _ e hbuildBinding]

theorem reconcileGenerate_binding_write_error (env : Env) (w : World) (policy : ClusterPolicy)
    (exceptions : List PolicyException) (n bn : String) (bv : ValidatingAdmissionPolicy)
    (bb : ValidatingAdmissionPolicyBinding) (e : Err)
    (hbuild : BuildValidatingAdmissionPolicy env (observedVAPOrFresh env n) policy exceptions
      = .ok bv)
    (hwrite : vapWriteAnswer env (observedVAPOrFresh env n) bv = none)
    (hbuildBinding : BuildValidatingAdmissionPolicyBinding env
      (observedVAPBindingOrFresh env bn) policy = .ok bb)
    (hwriteBinding : vapBindingWriteAnswer env (observedVAPBindingOrFresh env bn) bb = some e) :
    reconcileGenerate env w policy exceptions n bn (getValidatingAdmissionPolicy env n)
        (getValidatingAdmissionPolicyBinding env bn) =
      (.error e,
        updateClusterPolicyStatus
          { w with
            cluster :=
              if (observedVAPOrFresh env n).resourceVersion = "" then w.cluster.addVAP bv.name
              else w.cluster
            calls := w.calls ++ [(vapWrite (observedVAPOrFresh env n) bv, none)] ++
              [(vapBindingWrite (observedVAPBindingOrFresh env bn) bb, some e)] }
          policy false e.text) := by
  rw [reconcileGenerate_eq, applyVAP_ok env w policy exceptions _ bv hbuild hwrite]
  dsimp only
  rw [applyVAPBinding_write_error env _ policy _ bb e hbuildBinding hwriteBinding]

theorem reconcileGenerate_ok (env : Env) (w : World) (policy : ClusterPolicy)
    (exceptions : List PolicyException) (n bn : String) (bv : ValidatingAdmissionPolicy)
    (bb : ValidatingAdmissionPolicyBinding)
    (hbuild : BuildValidatingAdmissionPolicy env (observedVAPOrFresh env n) policy exceptions
      = .ok bv)
    (hwrite : vapWriteAnswer env (observedVAPOrFresh env n) bv = none)
    (hbuildBinding : BuildValidatingAdmissionPolicyBinding env
      (observedVAPBindingOrFresh env bn) policy = .ok bb)
    (hwriteBinding : vapBindingWriteAnswer env (observedVAPBindingOrFresh env bn) bb = none) :
    reconcileGenerate env w policy exceptions n bn (getValidatingAdmissionPolicy env n)
        (getValidatingAdmissionPolicyBinding env bn) =
      (.ok,
        { cluster :=
            if (observedVAPBindingOrFresh env bn).resourceVersion = "" then
              (if (observedVAPOrFresh env n).resourceVersion = "" then w.cluster.addVAP bv.name
                else w.cluster).addVAPBinding bb.name
            else
              (if (observedVAPOrFresh env n).resourceVersion = "" then w.cluster.addVAP bv.name
                else w.cluster)
          calls := w.calls ++ [(vapWrite (observedVAPOrFresh env n) bv, none)] ++
            [(vapBindingWrite (observedVAPBindingOrFresh env bn) bb, none)]
          statuses := w.statuses ++ [{ policy := policy.name, generated := true, message := "" }]
          events := w.events ++
            [{ policy := policy.name
               vapName := (if (observedVAPOrFresh env n).resourceVersion = "" then bv
                 else observedVAPOrFresh env n).name
               vapBindingName := (if (observedVAPBindingOrFresh env bn).resourceVersion = ""
                 then bb else observedVAPBindingOrFresh env bn).name }] }) := by
  rw [reconcileGenerate_eq, applyVAP_ok env w policy exceptions _ bv hbuild hwrite]
  dsimp only
  rw [applyVAPBinding_ok env _ policy _ bb hbuildBinding hwriteBinding]
  rfl

theorem build_vap_identity (env : Env) (tv bv : ValidatingAdmissionPolicy)
    (policy : ClusterPolicy) (exceptions : List PolicyException)
    (hbuild : BuildValidatingAdmissionPolicy env tv policy exceptions = .ok bv) :
    bv.name = tv.name ∧ bv.resourceVersion = tv.resourceVersion := by
  unfold BuildValidatingAdmissionPolicy at hbuild
  split at hbuild
  · simp at hbuild
  · simp at hbuild
    subst hbuild
    exact ⟨rfl, rfl⟩

theorem build_binding_identity (env : Env) (tb bb : ValidatingAdmissionPolicyBinding)
    (policy : ClusterPolicy)
    (hbuild : BuildValidatingAdmissionPolicyBinding env tb policy = .ok bb) :
    bb.name = tb.name ∧ bb.resourceVersion = tb.resourceVersion := by
  unfold BuildValidatingAdmissionPolicyBinding at hbuild
  split at hbuild
  · simp at hbuild
  · simp at hbuild
    subst hbuild
    exact ⟨rfl, rfl⟩

/-! ## Lemmas on the skip branch -/

theorem reconcileSkip_statuses (env : Env) (c : Cluster) (policy : ClusterPolicy)
    (n bn : String) (vapRes : Except Err ValidatingAdmissionPolicy)
    (vapBindingRes : Except Err ValidatingAdmissionPolicyBinding) (msg : String) :
    ∀ s ∈ (reconcileSkip env (World.init c) policy n bn vapRes vapBindingRes msg).2.statuses,
      s = { policy := policy.name, generated := false
            message := if msg = "" then
                "skip generating ValidatingAdmissionPolicy: a policy exception is configured."
              else msg } := by
  unfold reconcileSkip
  cases vapRes <;> cases vapBindingRes <;>
  cases hdv : env.vapDelete n <;> cases hdb : env.vapbindingDelete bn <;>
  simp [hdv, hdb, deleteVAP, deleteVAPBinding, World.record, World.init, updateClusterPolicyStatus]

theorem reconcileSkip_outcome (env : Env) (c : Cluster) (policy : ClusterPolicy)
    (n bn : String) (msg : String)
    (hseenVAP : c.hasVAP n = true → env.observesVAP n = true)
    (hseenBinding : c.hasVAPBinding bn = true → env.observesVAPBinding bn = true)
    (hcalls : ∀ call ∈ (reconcileSkip env (World.init c) policy n bn
      (getValidatingAdmissionPolicy env n) (getValidatingAdmissionPolicyBinding env bn)
      msg).2.calls, call.2 = none) :
    (reconcileSkip env (World.init c) policy n bn (getValidatingAdmissionPolicy env n)
      (getValidatingAdmissionPolicyBinding env bn) msg).1 = .ok ∧
    (reconcileSkip env (World.init c) policy n bn (getValidatingAdmissionPolicy env n)
      (getValidatingAdmissionPolicyBinding env bn) msg).2.cluster.hasVAP n = false ∧
    (reconcileSkip env (World.init c) policy n bn (getValidatingAdmissionPolicy env n)
      (getValidatingAdmissionPolicyBinding env bn) msg).2.cluster.hasVAPBinding bn = false ∧
    (reconcileSkip env (World.init c) policy n bn (getValidatingAdmissionPolicy env n)
      (getValidatingAdmissionPolicyBinding env bn) msg).2.statuses =
      [{ policy := policy.name, generated := false
         message := if msg = "" then
             "skip generating ValidatingAdmissionPolicy: a policy exception is configured."
           else msg }] := by
  simp only [Env.observesVAP, Env.observesVAPBinding] at *
  unfold reconcileSkip at hcalls ⊢
  cases hv : getValidatingAdmissionPolicy env n <;>
  cases hb : getValidatingAdmissionPolicyBinding env bn <;>
  cases hdv : env.vapDelete n <;>
  cases hdb : env.vapbindingDelete bn <;>
  simp_all [deleteVAP, deleteVAPBinding, World.record, World.init, updateClusterPolicyStatus]

theorem reconcileSkip_ok_removes (env : Env) (c : Cluster) (policy : ClusterPolicy)
    (n bn : String) (msg : String)
    (hseenVAP : c.hasVAP n = true → env.observesVAP n = true)
    (hseenBinding : c.hasVAPBinding bn = true → env.observesVAPBinding bn = true)
    (hok : (reconcileSkip env (World.init c) policy n bn
      (getValidatingAdmissionPolicy env n) (getValidatingAdmissionPolicyBinding env bn)
      msg).1 = .ok) :
    (reconcileSkip env (World.init c) policy n bn (getValidatingAdmissionPolicy env n)
      (getValidatingAdmissionPolicyBinding env bn) msg).2.cluster.hasVAP n = false ∧
    (reconcileSkip env (World.init c) policy n bn (getValidatingAdmissionPolicy env n)
      (getValidatingAdmissionPolicyBinding env bn) msg).2.cluster.hasVAPBinding bn = false := by
  simp only [Env.observesVAP, Env.observesVAPBinding] at *
  unfold reconcileSkip at hok ⊢
  cases hv : getValidatingAdmissionPolicy env n <;>
  cases hb : getValidatingAdmissionPolicyBinding env bn <;>
  cases hdv : env.vapDelete n <;>
  cases hdb : env.vapbindingDelete bn <;>
  simp_all [deleteVAP, deleteVAPBinding, World.record, World.init, updateClusterPolicyStatus]

theorem observesVAP_of_version (env : Env) (n : String)
    (h : (observedVAPOrFresh env n).resourceVersion ≠ "") : env.observesVAP n = true := by
  unfold observedVAPOrFresh at h
  unfold Env.observesVAP
  cases hv : getValidatingAdmissionPolicy env n <;> simp_all

theorem observesVAPBinding_of_version (env : Env) (n : String)
    (h : (observedVAPBindingOrFresh env n).resourceVersion ≠ "") :
    env.observesVAPBinding n = true := by
  unfold observedVAPBindingOrFresh at h
  unfold Env.observesVAPBinding
  cases hv : getValidatingAdmissionPolicyBinding env n <;> simp_all

/-! ## Claims -/

/-- C1 (permission gating). For every policy that is found and has a validation rule, if the
admission-policy capability or the binding capability is false, `reconcile` returns success,
issues no client call (the store is left as it was, whatever it holds and whatever the
eligibility predicate would answer), emits no event and writes exactly one status:
generated false, with the message naming the missing permission (the admission-policy one
when both are missing). -/
theorem reconcile_permission_gating (env : Env) (c : Cluster) (name : String)
    (policy : ClusterPolicy)
    (hfound : getClusterPolicy env name = .ok policy)
    (hval : policy.spec.HasValidate = true)
    (hperm : env.hasValidatingAdmissionPolicyPermission = false ∨
      env.hasValidatingAdmissionPolicyBindingPermission = false) :
    reconcile env (World.init c) name =
      (.ok,
        { cluster := c
          calls := []
          statuses := [
            { policy := policy.name
              generated := false
              message :=
                if env.hasValidatingAdmissionPolicyPermission = false then
                  "insufficient permissions to generate ValidatingAdmissionPolicies"
                else "insufficient permissions to generate ValidatingAdmissionPolicyBindings" }]
          events := [] }) := by
  unfold reconcile
  rw [hfound]
  simp only [hval]
  cases hp : env.hasValidatingAdmissionPolicyPermission
  · simp [updateClusterPolicyStatus, World.init]
  · rw [hp] at hperm
    simp at hperm
    simp [hperm, updateClusterPolicyStatus, World.init]

/-- Witness of C1: scenario D, the binding capability is missing while the admission policy
exists; nothing is called and the store still holds the admission policy. -/
theorem reconcile_permission_gating_witness :
    reconcile envD (World.init clusterVAPOnly) "p1" =
      (.ok,
        { cluster := clusterVAPOnly
          calls := []
          statuses := [
            { policy := "p1"
              generated := false
              message := "insufficient permissions to generate ValidatingAdmissionPolicyBindings" }]
          events := [] }) :=
  reconcile_permission_gating envD clusterVAPOnly "p1" policyP1 rfl (by decide)
    (Or.inr (by decide))

/-- C2, amended. For every policy that is found, has a validation rule and both capabilities:
if the eligibility predicate reports it ineligible, every derived object of the policy that
is in the store is observed by its lister, and the deletes issued succeed, then `reconcile`
returns success, neither the admission policy named after the policy nor the binding named
with the suffix -binding is in the store afterwards, and the one status written has
generated false. -/
theorem reconcile_eligibility_gating (env : Env) (c : Cluster) (name : String)
    (policy : ClusterPolicy) (msg : String)
    (hfound : getClusterPolicy env name = .ok policy)
    (hval : policy.spec.HasValidate = true)
    (hvap : env.hasValidatingAdmissionPolicyPermission = true)
    (hbinding : env.hasValidatingAdmissionPolicyBindingPermission = true)
    (hskip : env.canGenerateVAP policy.spec (applicableExceptions env name policy) = (false, msg))
    (hseenVAP : c.hasVAP policy.name = true → env.observesVAP policy.name = true)
    (hseenBinding : c.hasVAPBinding (policy.name ++ "-binding") = true →
      env.observesVAPBinding (policy.name ++ "-binding") = true)
    (hcalls : ∀ call ∈ (reconcile env (World.init c) name).2.calls, call.2 = none) :
    (reconcile env (World.init c) name).1 = .ok ∧
    (reconcile env (World.init c) name).2.cluster.hasVAP policy.name = false ∧
    (reconcile env (World.init c) name).2.cluster.hasVAPBinding (policy.name ++ "-binding")
      = false ∧
    ∃ m, (reconcile env (World.init c) name).2.statuses =
      [{ policy := policy.name, generated := false, message := m }] := by
  rw [reconcile_of_ineligible env _ name policy msg hfound hval hvap hbinding hskip] at hcalls ⊢
  simp only [constructVapBindingName] at hcalls ⊢
  have h := reconcileSkip_outcome env c policy policy.name (policy.name ++ "-binding") msg
    hseenVAP hseenBinding hcalls
  exact ⟨h.1, h.2.1, h.2.2.1, _, h.2.2.2⟩

/-- Counterexample to C2 as stated: `p1` is found, has a validation rule and both
capabilities, the predicate reports it ineligible and no store call fails, but the listers
have not observed the two derived objects the store holds; `reconcile` returns success and
both objects are still in the store. -/
theorem eligibility_gating_counterexample :
    getClusterPolicy envStale "p1" = .ok policyP1 ∧
    policyP1.spec.HasValidate = true ∧
    envStale.hasValidatingAdmissionPolicyPermission = true ∧
    envStale.hasValidatingAdmissionPolicyBindingPermission = true ∧
    envStale.canGenerateVAP policyP1.spec (applicableExceptions envStale "p1" policyP1)
      = (false, "") ∧
    (∀ call ∈ (reconcile envStale (World.init clusterBoth) "p1").2.calls, call.2 = none) ∧
    (reconcile envStale (World.init clusterBoth) "p1").1 = .ok ∧
    (reconcile envStale (World.init clusterBoth) "p1").2.cluster.hasVAP "p1" = true ∧
    (reconcile envStale (World.init clusterBoth) "p1").2.cluster.hasVAPBinding "p1-binding"
      = true :=
  ⟨rfl, by decide, rfl, rfl, rfl, by decide, by decide, by decide, by decide⟩

/-- Witness of C2: scenario B, both derived objects stored and observed, `p1` ineligible. -/
theorem reconcile_eligibility_gating_witness :
    (reconcile envB (World.init clusterBoth) "p1").1 = .ok ∧
    (reconcile envB (World.init clusterBoth) "p1").2.cluster.hasVAP "p1" = false ∧
    (reconcile envB (World.init clusterBoth) "p1").2.cluster.hasVAPBinding "p1-binding"
      = false ∧
    ∃ m, (reconcile envB (World.init clusterBoth) "p1").2.statuses =
      [{ policy := "p1", generated := false, message := m }] :=
  reconcile_eligibility_gating envB clusterBoth "p1" policyP1 "" rfl (by decide) rfl rfl rfl
    (fun _ => rfl) (fun _ => rfl) (by decide)

/-- C3 (success path). For every policy named n that is found, has a validation rule, has
both capabilities and is eligible, when both constructions succeed and every store call
issued succeeds, `reconcile` returns success and issues exactly two store calls: for the
admission policy named n a create when no stored version is observed and otherwise an update
of the observed object (same name and version, rebuilt content), then the same for the
binding named n-binding; no delete is issued. It writes the single status generated true
with an empty message and emits the event naming the policy and both derived objects. -/
theorem reconcile_success_path (env : Env) (c : Cluster) (name : String)
    (policy : ClusterPolicy) (msg : String)
    (bv : ValidatingAdmissionPolicy) (bb : ValidatingAdmissionPolicyBinding)
    (hfound : getClusterPolicy env name = .ok policy)
    (hval : policy.spec.HasValidate = true)
    (hvap : env.hasValidatingAdmissionPolicyPermission = true)
    (hbinding : env.hasValidatingAdmissionPolicyBindingPermission = true)
    (hgen : env.canGenerateVAP policy.spec (applicableExceptions env name policy) = (true, msg))
    (hbuildVAP : BuildValidatingAdmissionPolicy env (observedVAPOrFresh env policy.name) policy
      (applicableExceptions env name policy) = .ok bv)
    (hbuildBinding : BuildValidatingAdmissionPolicyBinding env
      (observedVAPBindingOrFresh env (policy.name ++ "-binding")) policy = .ok bb)
    (hcalls : ∀ call ∈ (reconcile env (World.init c) name).2.calls, call.2 = none) :
    (reconcile env (World.init c) name).1 = .ok ∧
    (reconcile env (World.init c) name).2.calls =
      [(vapWrite (observedVAPOrFresh env policy.name) bv, none),
       (vapBindingWrite (observedVAPBindingOrFresh env (policy.name ++ "-binding")) bb, none)] ∧
    bv.name = policy.name ∧
    bv.resourceVersion = (observedVAPOrFresh env policy.name).resourceVersion ∧
    bb.name = policy.name ++ "-binding" ∧
    bb.resourceVersion =
      (observedVAPBindingOrFresh env (policy.name ++ "-binding")).resourceVersion ∧
    (reconcile env (World.init c) name).2.statuses =
      [{ policy := policy.name, generated := true, message := "" }] ∧
    (reconcile env (World.init c) name).2.events =
      [{ policy := policy.name, vapName := policy.name,
         vapBindingName := policy.name ++ "-binding" }] := by
  rw [reconcile_of_eligible env _ name policy msg hfound hval hvap hbinding hgen] at hcalls ⊢
  simp only [constructVapBindingName] at hcalls ⊢
  have hnv := observedVAPOrFresh_name env policy.name
  have hnb := observedVAPBindingOrFresh_name env (policy.name ++ "-binding")
  have hbv := build_vap_identity env _ bv policy _ hbuildVAP
  have hbb := build_binding_identity env _ bb policy hbuildBinding
  cases hwa : vapWriteAnswer env (observedVAPOrFresh env policy.name) bv with
  | some e =>
    rw [reconcileGenerate_vap_write_error env _ policy _ _ _ bv e hbuildVAP hwa] at hcalls
    simp [World.init, updateClusterPolicyStatus] at hcalls
  | none =>
    cases hwb : vapBindingWriteAnswer env
        (observedVAPBindingOrFresh env (policy.name ++ "-binding")) bb with
    | some e =>
      rw [reconcileGenerate_binding_write_error env _ policy _ _ _ bv bb e hbuildVAP hwa
        hbuildBinding hwb] at hcalls
      simp [World.init, updateClusterPolicyStatus] at hcalls
    | none =>
      rw [reconcileGenerate_ok env _ policy _ _ _ bv bb hbuildVAP hwa hbuildBinding hwb]
      refine ⟨rfl, by simp [World.init], hbv.1.trans hnv, hbv.2, hbb.1.trans hnb, hbb.2,
        by simp [World.init], ?_⟩
      simp only [World.init, List.nil_append]
      by_cases h1 : (observedVAPOrFresh env policy.name).resourceVersion = "" <;>
      by_cases h2 : (observedVAPBindingOrFresh env
          (policy.name ++ "-binding")).resourceVersion = "" <;>
      simp [h1, h2, hbv.1, hbb.1, hnv, hnb]

/-- Witness of C3, scenario A: nothing derived yet, both objects are created. -/
theorem reconcile_success_path_witness :
    (reconcile envA (World.init clusterEmpty) "p1").1 = .ok ∧
    (reconcile envA (World.init clusterEmpty) "p1").2.calls =
      [(.createVAP { name := "p1", resourceVersion := "", content := "p1" }, none),
       (.createVAPBinding { name := "p1-binding", resourceVersion := "", content := "p1" },
         none)] ∧
    (reconcile envA (World.init clusterEmpty) "p1").2.statuses =
      [{ policy := "p1", generated := true, message := "" }] :=
  have h := reconcile_success_path envA clusterEmpty "p1" policyP1 ""
    { name := "p1", resourceVersion := "", content := "p1" }
    { name := "p1-binding", resourceVersion := "", content := "p1" }
    rfl (by decide) rfl rfl rfl rfl rfl (by decide)
  ⟨h.1, h.2.1, h.2.2.2.2.2.2.1⟩

/-- Counterexample to C4 as stated: in scenario B the predicate returns an empty reason, and
the message written is the longer text that names the ValidatingAdmissionPolicy, not
"skip generating: a policy exception is configured.". -/
theorem default_message_counterexample :
    getClusterPolicy envB "p1" = .ok policyP1 ∧
    envB.canGenerateVAP policyP1.spec (applicableExceptions envB "p1" policyP1) = (false, "") ∧
    (reconcile envB (World.init clusterBoth) "p1").2.statuses =
      [{ policy := "p1", generated := false
         message :=
           "skip generating ValidatingAdmissionPolicy: a policy exception is configured." }] ∧
    (reconcile envB (World.init clusterBoth) "p1").2.statuses ≠
      [{ policy := "p1", generated := false
         message := "skip generating: a policy exception is configured." }] :=
  ⟨rfl, rfl, by decide, by decide⟩

/-- C4, amended. For every ineligible policy (found, with a validation rule and both
capabilities), every status `reconcile` writes is generated false with the message
"skip generating ValidatingAdmissionPolicy: a policy exception is configured." when the
predicate returns an empty reason, and with the reason unchanged when it is non-empty; when
the deletes issued succeed, exactly that one status is written. -/
theorem reconcile_ineligible_status_message (env : Env) (c : Cluster) (name : String)
    (policy : ClusterPolicy) (msg : String)
    (hfound : getClusterPolicy env name = .ok policy)
    (hval : policy.spec.HasValidate = true)
    (hvap : env.hasValidatingAdmissionPolicyPermission = true)
    (hbinding : env.hasValidatingAdmissionPolicyBindingPermission = true)
    (hskip : env.canGenerateVAP policy.spec (applicableExceptions env name policy)
      = (false, msg)) :
    (∀ s ∈ (reconcile env (World.init c) name).2.statuses,
      s = { policy := policy.name, generated := false
            message := if msg = "" then
                "skip generating ValidatingAdmissionPolicy: a policy exception is configured."
              else msg }) ∧
    ((∀ call ∈ (reconcile env (World.init c) name).2.calls, call.2 = none) →
      (reconcile env (World.init c) name).2.statuses =
        [{ policy := policy.name, generated := false
           message := if msg = "" then
               "skip generating ValidatingAdmissionPolicy: a policy exception is configured."
             else msg }]) := by
  rw [reconcile_of_ineligible env _ name policy msg hfound hval hvap hbinding hskip]
  refine ⟨reconcileSkip_statuses env c policy _ _ _ _ msg, ?_⟩
  intro hcalls
  unfold reconcileSkip at hcalls ⊢
  cases hv : getValidatingAdmissionPolicy env policy.name <;>
  cases hb : getValidatingAdmissionPolicyBinding env (constructVapBindingName policy.name) <;>
  cases hdv : env.vapDelete policy.name <;>
  cases hdb : env.vapbindingDelete (constructVapBindingName policy.name) <;>
  simp_all [deleteVAP, deleteVAPBinding, World.record, World.init, updateClusterPolicyStatus]

/-- Witness of C4: scenario B, empty reason. -/
theorem reconcile_ineligible_status_message_witness :
    (reconcile envB (World.init clusterBoth) "p1").2.statuses =
      [{ policy := "p1", generated := false
         message :=
           "skip generating ValidatingAdmissionPolicy: a policy exception is configured." }] :=
  (reconcile_ineligible_status_message envB clusterBoth "p1" policyP1 "" rfl (by decide) rfl rfl
    rfl).2 (by decide)

/-- Counterexample to C5 as stated: `p1` lacks the admission-policy capability while both
derived objects are stored and observed; `reconcile` issues no call, so no call fails, and
both derived objects still exist afterwards. -/
theorem no_derived_objects_counterexample :
    getClusterPolicy envNoVAPPermission "p1" = .ok policyP1 ∧
    envNoVAPPermission.hasValidatingAdmissionPolicyPermission = false ∧
    envNoVAPPermission.observesVAP "p1" = true ∧
    envNoVAPPermission.observesVAPBinding "p1-binding" = true ∧
    (∀ call ∈ (reconcile envNoVAPPermission (World.init clusterBoth) "p1").2.calls,
      call.2 = none) ∧
    (reconcile envNoVAPPermission (World.init clusterBoth) "p1").1 = .ok ∧
    (reconcile envNoVAPPermission (World.init clusterBoth) "p1").2.cluster.hasVAP "p1"
      = true ∧
    (reconcile envNoVAPPermission (World.init clusterBoth) "p1").2.cluster.hasVAPBinding
      "p1-binding" = true :=
  ⟨rfl, rfl, by decide, by decide, by decide, by decide, by decide, by decide⟩

/-- C5, amended. For every policy that is found and every starting store: if the policy has a
validation rule and both capabilities, is ineligible, every derived object of it in the store
is observed by its lister and the deletes issued succeed, then after `reconcile` neither
derived object exists; if instead it has no validation rule or a capability is false,
`reconcile` issues no store call and leaves the store as it was. -/
theorem reconcile_derived_objects_after_gates (env : Env) (c : Cluster) (name : String)
    (policy : ClusterPolicy)
    (hfound : getClusterPolicy env name = .ok policy) :
    (∀ msg,
      policy.spec.HasValidate = true →
      env.hasValidatingAdmissionPolicyPermission = true →
      env.hasValidatingAdmissionPolicyBindingPermission = true →
      env.canGenerateVAP policy.spec (applicableExceptions env name policy) = (false, msg) →
      (c.hasVAP policy.name = true → env.observesVAP policy.name = true) →
      (c.hasVAPBinding (policy.name ++ "-binding") = true →
        env.observesVAPBinding (policy.name ++ "-binding") = true) →
      (∀ call ∈ (reconcile env (World.init c) name).2.calls, call.2 = none) →
      (reconcile env (World.init c) name).2.cluster.hasVAP policy.name = false ∧
      (reconcile env (World.init c) name).2.cluster.hasVAPBinding (policy.name ++ "-binding")
        = false) ∧
    ((policy.spec.HasValidate = false ∨
        env.hasValidatingAdmissionPolicyPermission = false ∨
        env.hasValidatingAdmissionPolicyBindingPermission = false) →
      (reconcile env (World.init c) name).2.cluster = c ∧
      (reconcile env (World.init c) name).2.calls = []) := by
  constructor
  · intro msg hval hvap hbinding hskip hseenVAP hseenBinding hcalls
    rw [reconcile_of_ineligible env _ name policy msg hfound hval hvap hbinding hskip]
      at hcalls ⊢
    simp only [constructVapBindingName] at hcalls ⊢
    have h := reconcileSkip_outcome env c policy policy.name (policy.name ++ "-binding") msg
      hseenVAP hseenBinding hcalls
    exact ⟨h.2.1, h.2.2.1⟩
  · intro hgate
    unfold reconcile
    rw [hfound]
    cases hval : policy.spec.HasValidate <;>
    cases hvap : env.hasValidatingAdmissionPolicyPermission <;>
    cases hbinding : env.hasValidatingAdmissionPolicyBindingPermission <;>
    simp_all [updateClusterPolicyStatus, World.init]

/-- Witness of C5: scenario B, both derived objects are removed. -/
theorem reconcile_derived_objects_after_gates_witness :
    (reconcile envB (World.init clusterBoth) "p1").2.cluster.hasVAP "p1" = false ∧
    (reconcile envB (World.init clusterBoth) "p1").2.cluster.hasVAPBinding "p1-binding"
      = false :=
  (reconcile_derived_objects_after_gates envB clusterBoth "p1" policyP1 rfl).1 "" (by decide)
    rfl rfl rfl (fun _ => by decide) (fun _ => by decide) (by decide)

/-- Counterexample to C6 as stated: scenario D, the binding capability is missing and the
store holds the admission policy alone, coherently observed; `reconcile` returns success
without a store call, and the admission policy exists while the binding does not. -/
theorem pairing_counterexample :
    getClusterPolicy envD "p1" = .ok policyP1 ∧
    envD.observesVAP "p1" = clusterVAPOnly.hasVAP "p1" ∧
    envD.observesVAPBinding "p1-binding" = clusterVAPOnly.hasVAPBinding "p1-binding" ∧
    (reconcile envD (World.init clusterVAPOnly) "p1").1 = .ok ∧
    (∀ call ∈ (reconcile envD (World.init clusterVAPOnly) "p1").2.calls, call.2 = none) ∧
    (reconcile envD (World.init clusterVAPOnly) "p1").2.cluster.hasVAP "p1" = true ∧
    (reconcile envD (World.init clusterVAPOnly) "p1").2.cluster.hasVAPBinding "p1-binding"
      = false :=
  ⟨rfl, by decide, by decide, by decide, by decide, by decide, by decide⟩

/-- C6, amended. For every policy that is found, has a validation rule and both capabilities,
and every starting store whose derived objects of that policy are observed by the listers
exactly when they exist: after a `reconcile` that returns success, the admission policy
named after the policy exists if and only if the binding named with the suffix -binding
exists. -/
theorem reconcile_pairing (env : Env) (c : Cluster) (name : String) (policy : ClusterPolicy)
    (hfound : getClusterPolicy env name = .ok policy)
    (hval : policy.spec.HasValidate = true)
    (hvap : env.hasValidatingAdmissionPolicyPermission = true)
    (hbinding : env.hasValidatingAdmissionPolicyBindingPermission = true)
    (hcoVAP : env.observesVAP policy.name = c.hasVAP policy.name)
    (hcoBinding : env.observesVAPBinding (policy.name ++ "-binding") =
      c.hasVAPBinding (policy.name ++ "-binding"))
    (hok : (reconcile env (World.init c) name).1 = .ok) :
    ((reconcile env (World.init c) name).2.cluster.hasVAP policy.name = true ↔
      (reconcile env (World.init c) name).2.cluster.hasVAPBinding (policy.name ++ "-binding")
        = true) := by
  cases hcan : env.canGenerateVAP policy.spec (applicableExceptions env name policy) with
  | mk ok msg =>
    cases ok with
    | false =>
      rw [reconcile_of_ineligible env _ name policy msg hfound hval hvap hbinding hcan] at hok ⊢
      simp only [constructVapBindingName] at hok ⊢
      have h := reconcileSkip_ok_removes env c policy policy.name (policy.name ++ "-binding")
        msg (fun h => by rw [hcoVAP]; exact h) (fun h => by rw [hcoBinding]; exact h) hok
      rw [h.1, h.2]
    | true =>
      rw [reconcile_of_eligible env _ name policy msg hfound hval hvap hbinding hcan] at hok ⊢
      simp only [constructVapBindingName] at hok ⊢
      have hnv := observedVAPOrFresh_name env policy.name
      have hnb := observedVAPBindingOrFresh_name env (policy.name ++ "-binding")
      cases hbv : BuildValidatingAdmissionPolicy env (observedVAPOrFresh env policy.name)
          policy (applicableExceptions env name policy) with
      | error e =>
        rw [reconcileGenerate_vap_build_error env _ policy _ _ _ e hbv] at hok
        simp at hok
      | ok bv =>
        have hbvn := (build_vap_identity env _ bv policy _ hbv).1.trans hnv
        cases hwa : vapWriteAnswer env (observedVAPOrFresh env policy.name) bv with
        | some e =>
          rw [reconcileGenerate_vap_write_error env _ policy _ _ _ bv e hbv hwa] at hok
          simp at hok
        | none =>
          cases hbb : BuildValidatingAdmissionPolicyBinding env
              (observedVAPBindingOrFresh env (policy.name ++ "-binding")) policy with
          | error e =>
            rw [reconcileGenerate_binding_build_error env _ policy _ _ _ bv e hbv hwa hbb]
              at hok
            simp at hok
          | ok bb =>
            have hbbn := (build_binding_identity env _ bb policy hbb).1.trans hnb
            cases hwb : vapBindingWriteAnswer env
                (observedVAPBindingOrFresh env (policy.name ++ "-binding")) bb with
            | some e =>
              rw [reconcileGenerate_binding_write_error env _ policy _ _ _ bv bb e hbv hwa
                hbb hwb] at hok
              simp at hok
            | none =>
              rw [reconcileGenerate_ok env _ policy _ _ _ bv bb hbv hwa hbb hwb]
              have hv := observesVAP_of_version env policy.name
              have hb := observesVAPBinding_of_version env (policy.name ++ "-binding")
              by_cases h1 : (observedVAPOrFresh env policy.name).resourceVersion = "" <;>
              by_cases h2 : (observedVAPBindingOrFresh env
                  (policy.name ++ "-binding")).resourceVersion = "" <;>
              simp_all [World.init]

/-- Witness of C6: scenario A, both derived objects exist after the run. -/
theorem reconcile_pairing_witness :
    ((reconcile envA (World.init clusterEmpty) "p1").2.cluster.hasVAP "p1" = true ↔
      (reconcile envA (World.init clusterEmpty) "p1").2.cluster.hasVAPBinding "p1-binding"
        = true) :=
  reconcile_pairing envA clusterEmpty "p1" policyP1 rfl (by decide) rfl rfl (by decide)
    (by decide) (by decide)

/-- C7, evaluation of `enqueueException` at the failing input: the exception lists first
a policy absent from the cache and then `p1`; the entry for `p1` has no "/" in its policy
name, one rule name, and `p1` is in the cache, yet nothing is enqueued, because the lookup
failure of the first entry leaves the function. With `p1` as the only entry its key is
enqueued. -/
theorem enqueueException_stops_at_first_missing_policy :
    containsSlash "p1" = false ∧
    ["r1"].length ≤ 1 ∧
    getClusterPolicy envA "p1" = .ok policyP1 ∧
    polexGoneThenP1.exceptions =
      [{ policyName := "gone", ruleNames := [] }, { policyName := "p1", ruleNames := ["r1"] }] ∧
    enqueueException envA [] polexGoneThenP1 = [] ∧
    enqueueException envA [] polexP1 = ["p1"] :=
  ⟨by decide, by decide, rfl, rfl, by decide, by decide⟩

/-- C8 (failure reporting on the eligible path). For every eligible policy (found, with a
validation rule and both capabilities), whichever of the four steps fails first with error e
— construction of the admission policy, its create or update, construction of the binding,
its create or update — `reconcile` returns e, writes the single status generated false with
the text of e, and emits no event; the store calls issued are those of the steps before the
failure and the failing call itself. In particular when the admission policy was written
successfully and the binding step fails, the status carries the binding error. -/
theorem reconcile_failure_reporting (env : Env) (c : Cluster) (name : String)
    (policy : ClusterPolicy) (msg : String)
    (hfound : getClusterPolicy env name = .ok policy)
    (hval : policy.spec.HasValidate = true)
    (hvap : env.hasValidatingAdmissionPolicyPermission = true)
    (hbinding : env.hasValidatingAdmissionPolicyBindingPermission = true)
    (hgen : env.canGenerateVAP policy.spec (applicableExceptions env name policy)
      = (true, msg)) :
    (∀ e,
      BuildValidatingAdmissionPolicy env (observedVAPOrFresh env policy.name) policy
        (applicableExceptions env name policy) = .error e →
      (reconcile env (World.init c) name).1 = .error e ∧
      (reconcile env (World.init c) name).2.calls = [] ∧
      (reconcile env (World.init c) name).2.statuses =
        [{ policy := policy.name, generated := false, message := e.text }] ∧
      (reconcile env (World.init c) name).2.events = []) ∧
    (∀ bv e,
      BuildValidatingAdmissionPolicy env (observedVAPOrFresh env policy.name) policy
        (applicableExceptions env name policy) = .ok bv →
      vapWriteAnswer env (observedVAPOrFresh env policy.name) bv = some e →
      (reconcile env (World.init c) name).1 = .error e ∧
      (reconcile env (World.init c) name).2.calls =
        [(vapWrite (observedVAPOrFresh env policy.name) bv, some e)] ∧
      (reconcile env (World.init c) name).2.statuses =
        [{ policy := policy.name, generated := false, message := e.text }] ∧
      (reconcile env (World.init c) name).2.events = []) ∧
    (∀ bv e,
      BuildValidatingAdmissionPolicy env (observedVAPOrFresh env policy.name) policy
        (applicableExceptions env name policy) = .ok bv →
      vapWriteAnswer env (observedVAPOrFresh env policy.name) bv = none →
      BuildValidatingAdmissionPolicyBinding env
        (observedVAPBindingOrFresh env (policy.name ++ "-binding")) policy = .error e →
      (reconcile env (World.init c) name).1 = .error e ∧
      (reconcile env (World.init c) name).2.calls =
        [(vapWrite (observedVAPOrFresh env policy.name) bv, none)] ∧
      (reconcile env (World.init c) name).2.statuses =
        [{ policy := policy.name, generated := false, message := e.text }] ∧
      (reconcile env (World.init c) name).2.events = []) ∧
    (∀ bv bb e,
      BuildValidatingAdmissionPolicy env (observedVAPOrFresh env policy.name) policy
        (applicableExceptions env name policy) = .ok bv →
      vapWriteAnswer env (observedVAPOrFresh env policy.name) bv = none →
      BuildValidatingAdmissionPolicyBinding env
        (observedVAPBindingOrFresh env (policy.name ++ "-binding")) policy = .ok bb →
      vapBindingWriteAnswer env (observedVAPBindingOrFresh env (policy.name ++ "-binding")) bb
        = some e →
      (reconcile env (World.init c) name).1 = .error e ∧
      (reconcile env (World.init c) name).2.calls =
        [(vapWrite (observedVAPOrFresh env policy.name) bv, none),
         (vapBindingWrite (observedVAPBindingOrFresh env (policy.name ++ "-binding")) bb,
           some e)] ∧
      (reconcile env (World.init c) name).2.statuses =
        [{ policy := policy.name, generated := false, message := e.text }] ∧
      (reconcile env (World.init c) name).2.events = []) := by
  rw [reconcile_of_eligible env _ name policy msg hfound hval hvap hbinding hgen]
  simp only [constructVapBindingName]
  refine ⟨?_, ?_, ?_, ?_⟩
  · intro e hbv
    rw [reconcileGenerate_vap_build_error env _ policy _ _ _ e hbv]
    simp [World.init, updateClusterPolicyStatus]
  · intro bv e hbv hwa
    rw [reconcileGenerate_vap_write_error env _ policy _ _ _ bv e hbv hwa]
    simp [World.init, updateClusterPolicyStatus]
  · intro bv e hbv hwa hbb
    rw [reconcileGenerate_binding_build_error env _ policy _ _ _ bv e hbv hwa hbb]
    simp [World.init, updateClusterPolicyStatus]
  · intro bv bb e hbv hwa hbb hwb
    rw [reconcileGenerate_binding_write_error env _ policy _ _ _ bv bb e hbv hwa hbb hwb]
    simp [World.init, updateClusterPolicyStatus]

/-- Witness of C8: the admission policy `p1` is created, then the store refuses the create
of the binding; the result is that error, the status carries its text, no event is
emitted. -/
theorem reconcile_failure_reporting_witness :
    (reconcile envBindingRefused (World.init clusterEmpty) "p1").1 =
      .error { notFound := false, text := "forbidden" } ∧
    (reconcile envBindingRefused (World.init clusterEmpty) "p1").2.calls =
      [(.createVAP { name := "p1", resourceVersion := "", content := "p1" }, none),
       (.createVAPBinding { name := "p1-binding", resourceVersion := "", content := "p1" },
         some { notFound := false, text := "forbidden" })] ∧
    (reconcile envBindingRefused (World.init clusterEmpty) "p1").2.statuses =
      [{ policy := "p1", generated := false, message := "forbidden" }] ∧
    (reconcile envBindingRefused (World.init clusterEmpty) "p1").2.events = [] :=
  (reconcile_failure_reporting envBindingRefused clusterEmpty "p1" policyP1 "" rfl (by decide)
    rfl rfl rfl).2.2.2
    { name := "p1", resourceVersion := "", content := "p1" }
    { name := "p1-binding", resourceVersion := "", content := "p1" }
    { notFound := false, text := "forbidden" } rfl rfl rfl rfl

/-- Counterexample to C9 as stated: `p1` is ineligible and both derived objects are observed
in the cache, but the admission policy is already gone from the store, whose delete answers
not-found. `reconcile` returns that error, does not attempt the delete of the binding (which
stays in the store) and writes no status. -/
theorem delete_not_found_counterexample :
    getClusterPolicy envGone "p1" = .ok policyP1 ∧
    envGone.canGenerateVAP policyP1.spec (applicableExceptions envGone "p1" policyP1)
      = (false, "") ∧
    envGone.observesVAP "p1" = true ∧
    envGone.observesVAPBinding "p1-binding" = true ∧
    envGone.vapDelete "p1" = some { notFound := true, text := "p1 not found" } ∧
    (reconcile envGone (World.init clusterBindingOnly) "p1").1 =
      .error { notFound := true, text := "p1 not found" } ∧
    (reconcile envGone (World.init clusterBindingOnly) "p1").2.calls =
      [(.deleteVAP "p1", some { notFound := true, text := "p1 not found" })] ∧
    (reconcile envGone (World.init clusterBindingOnly) "p1").2.statuses = [] ∧
    (reconcile envGone (World.init clusterBindingOnly) "p1").2.cluster.hasVAPBinding
      "p1-binding" = true :=
  ⟨rfl, rfl, by decide, by decide, by decide, by decide, by decide, by decide, by decide⟩

/-- C9, amended. For every ineligible policy (found, with a validation rule and both
capabilities) whose two derived objects are both observed in the local cache: if the store
answers the delete of the admission policy with an error, not-found included, `reconcile`
returns that error, does not attempt the delete of the binding and writes no status; if the
delete of the admission policy succeeds and the store answers the delete of the binding with
an error, not-found included, `reconcile` returns that error and writes no status. -/
theorem reconcile_delete_error_propagates (env : Env) (c : Cluster) (name : String)
    (policy : ClusterPolicy) (msg : String)
    (hfound : getClusterPolicy env name = .ok policy)
    (hval : policy.spec.HasValidate = true)
    (hvap : env.hasValidatingAdmissionPolicyPermission = true)
    (hbinding : env.hasValidatingAdmissionPolicyBindingPermission = true)
    (hskip : env.canGenerateVAP policy.spec (applicableExceptions env name policy)
      = (false, msg))
    (hseenVAP : env.observesVAP policy.name = true)
    (hseenBinding : env.observesVAPBinding (policy.name ++ "-binding") = true) :
    (∀ e, env.vapDelete policy.name = some e →
      (reconcile env (World.init c) name).1 = .error e ∧
      (reconcile env (World.init c) name).2.calls = [(.deleteVAP policy.name, some e)] ∧
      (reconcile env (World.init c) name).2.statuses = [] ∧
      (reconcile env (World.init c) name).2.cluster = c) ∧
    (∀ e, env.vapDelete policy.name = none →
      env.vapbindingDelete (policy.name ++ "-binding") = some e →
      (reconcile env (World.init c) name).1 = .error e ∧
      (reconcile env (World.init c) name).2.calls =
        [(.deleteVAP policy.name, none),
         (.deleteVAPBinding (policy.name ++ "-binding"), some e)] ∧
      (reconcile env (World.init c) name).2.statuses = []) := by
  rw [reconcile_of_ineligible env _ name policy msg hfound hval hvap hbinding hskip]
  simp only [Env.observesVAP, Env.observesVAPBinding, constructVapBindingName] at *
  unfold reconcileSkip
  cases hv : getValidatingAdmissionPolicy env policy.name <;>
  cases hb : getValidatingAdmissionPolicyBinding env (policy.name ++ "-binding") <;>
  simp_all [deleteVAP, deleteVAPBinding, World.record, World.init, updateClusterPolicyStatus]

/-- Witness of C9: the not-found answer to the delete of the admission policy `p1` is what
`reconcile` returns. -/
theorem reconcile_delete_error_propagates_witness :
    (reconcile envGone (World.init clusterBindingOnly) "p1").1 =
      .error { notFound := true, text := "p1 not found" } ∧
    (reconcile envGone (World.init clusterBindingOnly) "p1").2.calls =
      [(.deleteVAP "p1", some { notFound := true, text := "p1 not found" })] ∧
    (reconcile envGone (World.init clusterBindingOnly) "p1").2.statuses = [] ∧
    (reconcile envGone (World.init clusterBindingOnly) "p1").2.cluster = clusterBindingOnly :=
  (reconcile_delete_error_propagates envGone clusterBindingOnly "p1" policyP1 "" rfl
    (by decide) rfl rfl rfl (by decide) (by decide)).1
    { notFound := true, text := "p1 not found" } (by decide)

/-- C10 (index safety). `reconcile` never fails on the access to the first rule: a rule set
with a validation rule is non-empty, the access is reached only after the has-validation-rule
check, and a found policy with an empty rule set returns success at that check, with no
effect at all. -/
theorem reconcile_first_rule_in_bounds (env : Env) (w : World) (name : String) :
    (reconcile env w name).1 ≠ .indexOutOfRange ∧
    (∀ policy, getClusterPolicy env name = .ok policy →
      (policy.spec.HasValidate = true → policy.spec.rules ≠ []) ∧
      (policy.spec.rules = [] → reconcile env w name = (.ok, w))) := by
  constructor
  · cases hfound : getClusterPolicy env name with
    | error e =>
      unfold reconcile
      rw [hfound]
      by_cases h : e.notFound = true <;> simp [h]
    | ok policy =>
      cases hval : policy.spec.HasValidate with
      | false =>
        unfold reconcile
        rw [hfound]
        simp [hval]
      | true =>
        cases hvap : env.hasValidatingAdmissionPolicyPermission with
        | false =>
          unfold reconcile
          rw [hfound]
          simp [hval, hvap]
        | true =>
          cases hbinding : env.hasValidatingAdmissionPolicyBindingPermission with
          | false =>
            unfold reconcile
            rw [hfound]
            simp [hval, hvap, hbinding]
          | true =>
            cases hcan : env.canGenerateVAP policy.spec
                (applicableExceptions env name policy) with
            | mk ok msg =>
              cases ok with
              | false =>
                rw [reconcile_of_ineligible env w name policy msg hfound hval hvap hbinding
                  hcan]
                unfold reconcileSkip
                cases getValidatingAdmissionPolicy env policy.name <;>
                cases getValidatingAdmissionPolicyBinding env
                  (constructVapBindingName policy.name) <;>
                cases hdv : env.vapDelete policy.name <;>
                cases hdb : env.vapbindingDelete (constructVapBindingName policy.name) <;>
                simp [hdv, hdb, deleteVAP, deleteVAPBinding, World.record]
              | true =>
                rw [reconcile_of_eligible env w name policy msg hfound hval hvap hbinding
                  hcan, reconcileGenerate_eq]
                split
                · simp
                · split <;> simp
  · intro policy hfound
    refine ⟨hasValidate_rules_ne_nil policy.spec, ?_⟩
    intro hnil
    unfold reconcile
    rw [hfound]
    simp [Spec.HasValidate, hnil]

/-- Witness of C10: the cached policy `p0` has an empty rule set; `reconcile` returns success
and changes nothing. -/
theorem reconcile_first_rule_in_bounds_witness :
    reconcile envA (World.init clusterBoth) "p0" = (.ok, World.init clusterBoth) :=
  ((reconcile_first_rule_in_bounds envA (World.init clusterBoth) "p0").2 policyP0 rfl).2 rfl

end VapGenerate
